import Mathlib

/-!
Shallow embedding of `src/index.js` of homebridge-aristonnet.

The source file contains two revisions of the `AristonWaterHeater` class,
referred to here as v1 (the first class, with `makeRequest`,
`getCurrentTemperature`, `getTargetTemperature`, `setTargetTemperature`)
and v2 (the second class, with `retryRequest`, `handleGetRequest`,
`fetchDeviceState`, `updateCache`).

JavaScript numbers are modelled by an explicit value type `JSVal` with a
finite-rational constructor plus `nan` / `inf` markers, so that the
source's `typeof x === 'number' && isFinite(x)` checks and truthiness
tests (`x || y`) are expressible.  Network interactions are modelled by
passing the outcome of each remote call (success payload or error) as an
explicit argument; `Date.now()` is an explicit `now : Int` argument.
-/

/-- A JavaScript runtime value, as far as this plugin inspects them:
finite numbers, the non-finite numbers NaN and Infinity, booleans,
strings and `undefined` (absent JSON fields). -/
inductive JSVal where
  | num : Rat → JSVal
  | nan : JSVal
  | inf : JSVal
  | boolean : Bool → JSVal
  | str : String → JSVal
  | undef : JSVal
  deriving DecidableEq

/-- JavaScript truthiness: `0`, `NaN`, `false`, `""` and `undefined`
are falsy, every other value this model can hold is truthy. -/
def truthy : JSVal → Bool
  | JSVal.num q => q != 0
  | JSVal.nan => false
  | JSVal.inf => true
  | JSVal.boolean b => b
  | JSVal.str s => s != ""
  | JSVal.undef => false

/-- The source's validity test `typeof x === 'number' && isFinite(x)`:
true exactly on finite numbers. -/
def isFiniteNumber : JSVal → Bool
  | JSVal.num _ => true
  | _ => false

/-- JavaScript short-circuit `a || b`. -/
def jsOr (a b : JSVal) : JSVal :=
  if truthy a then a else b

/-- An error thrown by a remote call: an HTTP error with a status code,
a network error without a response, or a locally constructed
`new Error(message)`. -/
inductive JsError where
  | http : Nat → JsError
  | network : JsError
  | generic : String → JsError
  deriving DecidableEq

/-- Outcome of one invocation of the wrapped request function. -/
inductive HttpOutcome where
  | success : JSVal → HttpOutcome
  | httpError : Nat → HttpOutcome
  | networkError : HttpOutcome
  deriving DecidableEq

/-- Result of a call through the retry layer. -/
inductive RequestResult where
  | ok : JSVal → RequestResult
  | err : JsError → RequestResult
  deriving DecidableEq

/-- Observable trace of one call through the retry layer: final result,
how many times the wrapped request function was invoked, how many times
`login()` was called, and how many backoff sleeps happened. -/
structure RequestTrace where
  result : RequestResult
  attempts : Nat
  logins : Nat
  sleeps : Nat
  deriving DecidableEq

/-! ## Constructor temperature bounds -/

/-- Temperature bounds of the v1 constructor. -/
structure V1Bounds where
  minTemperature : Rat
  maxTemperature : Rat
  deriving DecidableEq

/-- v1 constructor: `typeof config.minTemperature === 'number' ?
config.minTemperature : 40`, then reset to 40 if below 40. -/
def v1MinTemperature (cfgMin : Option Rat) : Rat :=
  if cfgMin.getD 40 < 40 then 40 else cfgMin.getD 40

/-- v1 constructor: `typeof config.maxTemperature === 'number' ?
config.maxTemperature : 100`, then reset to the (corrected)
minimum if below it. -/
def v1MaxTemperature (cfgMin cfgMax : Option Rat) : Rat :=
  if cfgMax.getD 100 < v1MinTemperature cfgMin then v1MinTemperature cfgMin
  else cfgMax.getD 100

/-- The temperature bounds the v1 constructor leaves on the instance. -/
def v1ConstructorBounds (cfgMin cfgMax : Option Rat) : V1Bounds :=
  { minTemperature := v1MinTemperature cfgMin
  , maxTemperature := v1MaxTemperature cfgMin cfgMax }

/-- Temperature bounds of the v2 constructor (fields `minTemp` /
`maxTemp` in the source). -/
structure V2Bounds where
  minTemp : Rat
  maxTemp : Rat
  deriving DecidableEq

/-- v2 constructor line `config.minTemp || 40` (and `config.maxTemp ||
80`): an absent field is `undefined` (falsy) and a configured `0` is
falsy, so both fall back to the default; any other configured number is
kept unchanged. -/
def v2ConfigBound (cfg : Option Rat) (d : Rat) : Rat :=
  match cfg with
  | none => d
  | some q => if q = 0 then d else q

/-- The temperature bounds the v2 constructor leaves on the instance. -/
def v2ConstructorBounds (cfgMin cfgMax : Option Rat) : V2Bounds :=
  { minTemp := v2ConfigBound cfgMin 40
  , maxTemp := v2ConfigBound cfgMax 80 }

/-! ## setTargetTemperature -/

/-- Body of the POST to `/temperature`: `{ eco: false, new: …, old: … }`. -/
structure TemperatureRequest where
  eco : Bool
  new : Rat
  old : JSVal
  deriving DecidableEq

/-- v1 `setTargetTemperature`: clamps the requested value with
`Math.max(minTemperature, Math.min(value, maxTemperature))`, stores the
clamped value in `this.targetTemperature` (first component) and sends it
as `new`, with `old` taken from the fetched
`procReqTemp || reqTemp || 70`. -/
def v1SetTargetTemperature (b : V1Bounds) (procReqTemp reqTemp : JSVal)
    (value : Rat) : Rat × TemperatureRequest :=
  (max b.minTemperature (min value b.maxTemperature),
   { eco := false
   , new := max b.minTemperature (min value b.maxTemperature)
   , old := jsOr procReqTemp (jsOr reqTemp (JSVal.num 70)) })

/-- v2 `setTargetTemperature`: sends the requested value as `new`
without any clamping, with `old` taken from the cached target
temperature. -/
def v2SetTargetTemperature (cachedTargetTemp : JSVal) (value : Rat) :
    TemperatureRequest :=
  { eco := false, new := value, old := cachedTargetTemp }

/-! ## Theorems for claims C1 and C6 -/

theorem v1MinTemperature_ge (cfgMin : Option Rat) :
    40 ≤ v1MinTemperature cfgMin := by
  unfold v1MinTemperature
  split
  · exact le_refl 40
  · exact le_of_not_lt (by assumption)

theorem v1Bounds_min_le_max (cfgMin cfgMax : Option Rat) :
    v1MinTemperature cfgMin ≤ v1MaxTemperature cfgMin cfgMax := by
  unfold v1MaxTemperature
  split
  · exact le_refl _
  · exact le_of_not_lt (by assumption)

/-- C1: in v1, `setTargetTemperature` stores and sends exactly the
clamped value `max(minTemperature, min(v, maxTemperature))`, which lies
inside the constructor-established bounds; in v2, however, the requested
value is sent to the remote `/temperature` endpoint unmodified, with no
clamping at all. -/
theorem c1_setTargetTemperature_clamping (cfgMin cfgMax : Option Rat)
    (p r ct : JSVal) (v : Rat) :
    (v1ConstructorBounds cfgMin cfgMax).minTemperature
      ≤ (v1SetTargetTemperature (v1ConstructorBounds cfgMin cfgMax) p r v).1
  ∧ (v1SetTargetTemperature (v1ConstructorBounds cfgMin cfgMax) p r v).1
      ≤ (v1ConstructorBounds cfgMin cfgMax).maxTemperature
  ∧ (v1SetTargetTemperature (v1ConstructorBounds cfgMin cfgMax) p r v).2.new
      = (v1SetTargetTemperature (v1ConstructorBounds cfgMin cfgMax) p r v).1
  ∧ (v1SetTargetTemperature (v1ConstructorBounds cfgMin cfgMax) p r v).1
      = max (v1ConstructorBounds cfgMin cfgMax).minTemperature
          (min v (v1ConstructorBounds cfgMin cfgMax).maxTemperature)
  ∧ (v2SetTargetTemperature ct v).new = v := by
  refine ⟨le_max_left _ _, ?_, rfl, rfl, rfl⟩
  exact max_le (v1Bounds_min_le_max cfgMin cfgMax) (min_le_right _ _)

/-- C1 counterexample: with v2's default bounds (minTemp = 40,
maxTemp = 80), requesting 200 °C sends `new = 200` to the remote
endpoint — not the clamp 80, and outside the bounds — so the claim that
every version clamps is false. -/
theorem c1_counterexample :
    (v2SetTargetTemperature (JSVal.num 40) 200).new = 200
  ∧ ¬ ((v2SetTargetTemperature (JSVal.num 40) 200).new
        ≤ (v2ConstructorBounds none none).maxTemp)
  ∧ (v2SetTargetTemperature (JSVal.num 40) 200).new
      ≠ max (v2ConstructorBounds none none).minTemp
          (min 200 (v2ConstructorBounds none none).maxTemp) := by
  refine ⟨rfl, ?_, ?_⟩ <;> decide

/-- C6: the v1 constructor corrects out-of-range configuration, so its
bounds always satisfy `40 ≤ minTemperature ≤ maxTemperature`; the v2
constructor keeps any non-falsy configured value unchanged (only absent
or `0` values fall back to the defaults 40 / 80), so no such invariant
is established there. -/
theorem c6_constructor_bounds (cfgMin cfgMax : Option Rat) (q : Rat) :
    40 ≤ (v1ConstructorBounds cfgMin cfgMax).minTemperature
  ∧ (v1ConstructorBounds cfgMin cfgMax).minTemperature
      ≤ (v1ConstructorBounds cfgMin cfgMax).maxTemperature
  ∧ (q ≠ 0 → (v2ConstructorBounds (some q) cfgMax).minTemp = q) := by
  refine ⟨v1MinTemperature_ge cfgMin, v1Bounds_min_le_max cfgMin cfgMax, ?_⟩
  intro hq
  simp [v2ConstructorBounds, v2ConfigBound, hq]

/-- C6 witness: at the concrete configuration `minTemp = 20`,
`maxTemp` absent, the v1 bounds are in range while v2 keeps 20. -/
theorem c6_constructor_bounds_witness :
    (40 ≤ (v1ConstructorBounds (some 20) none).minTemperature
  ∧ (v1ConstructorBounds (some 20) none).minTemperature
      ≤ (v1ConstructorBounds (some 20) none).maxTemperature
  ∧ (v2ConstructorBounds (some 20) none).minTemp = 20) ∧ (20 : Rat) ≠ 0 := by
  have h := c6_constructor_bounds (some 20) none 20
  exact ⟨⟨h.1, h.2.1, h.2.2 (by decide)⟩, by decide⟩

/-- C6 counterexample: with configuration `minTemp = 20` (and, in the
second part, `minTemp = 90` with `maxTemp` absent), the v2 constructor
keeps `minTemp = 20 < 40` and produces `maxTemp = 80 < minTemp = 90`,
violating both halves of the claimed invariant. -/
theorem c6_counterexample :
    ¬ (40 ≤ (v2ConstructorBounds (some 20) none).minTemp)
  ∧ ¬ ((v2ConstructorBounds (some 90) none).minTemp
        ≤ (v2ConstructorBounds (some 90) none).maxTemp) := by
  constructor <;> decide

/-! ## The request/retry layer -/

/-- Loop body of v1 `makeRequest(requestFunction, retries = 3, delay)`:
for each attempt, invoke the request function; on success return the
response; on HTTP 401 call `login()` (throwing `Re-authentication
failed` if login fails) and continue; on HTTP 429 sleep `delay` and
continue; on any other error rethrow it; after `retries` failed
attempts throw `Max retries reached`.  `outcomes i` is what the wrapped
request function does on its i-th invocation; `loginOk` is whether
`login()` leaves a token behind. -/
def v1Go (loginOk : Bool) (outcomes : Nat → HttpOutcome) :
    Nat → Nat → Nat → Nat → RequestTrace
  | i, 0, logins, sleeps =>
    { result := RequestResult.err (JsError.generic "Max retries reached")
    , attempts := i, logins := logins, sleeps := sleeps }
  | i, rem + 1, logins, sleeps =>
    match outcomes i with
    | HttpOutcome.success r =>
      { result := RequestResult.ok r, attempts := i + 1
      , logins := logins, sleeps := sleeps }
    | HttpOutcome.httpError s =>
      if s = 401 then
        if loginOk then v1Go loginOk outcomes (i + 1) rem (logins + 1) sleeps
        else
          { result := RequestResult.err (JsError.generic "Re-authentication failed")
          , attempts := i + 1, logins := logins + 1, sleeps := sleeps }
      else if s = 429 then
        v1Go loginOk outcomes (i + 1) rem logins (sleeps + 1)
      else
        { result := RequestResult.err (JsError.http s), attempts := i + 1
        , logins := logins, sleeps := sleeps }
    | HttpOutcome.networkError =>
      { result := RequestResult.err JsError.network, attempts := i + 1
      , logins := logins, sleeps := sleeps }

/-- v1 `makeRequest` with its default `retries = 3`: first
`ensureToken()` (a login when the token is missing or expired, throwing
`Authentication failed` when that login leaves no token), then the
retry loop. -/
def v1MakeRequest (tokenValid loginOk : Bool) (outcomes : Nat → HttpOutcome) :
    RequestTrace :=
  if tokenValid then v1Go loginOk outcomes 0 3 0 0
  else if loginOk then v1Go loginOk outcomes 0 3 1 0
  else
    { result := RequestResult.err (JsError.generic "Authentication failed")
    , attempts := 0, logins := 1, sleeps := 0 }

/-- Loop body of v2 `retryRequest(requestFn, retries = 3, delay)`: before
each attempt, log in if the token is expired; invoke the request
function; on success return; on any error, if this was the last attempt
rethrow the error, else re-login on 401, sleep on 429, and silently
retry on everything else.  If the loop ever finished without returning
the function would return `undefined`.  Logins inside the loop are
assumed to succeed (v2's `login` rethrows its own failure, which the
same `catch` then handles like a request failure; that path is not
exercised by the theorems below). -/
def v2Go (outcomes : Nat → HttpOutcome) :
    Bool → Nat → Nat → Nat → Nat → RequestTrace
  | _, i, 0, logins, sleeps =>
    { result := RequestResult.ok JSVal.undef, attempts := i
    , logins := logins, sleeps := sleeps }
  | expired, i, rem + 1, logins, sleeps =>
    match outcomes i with
    | HttpOutcome.success r =>
      { result := RequestResult.ok r, attempts := i + 1
      , logins := if expired then logins + 1 else logins, sleeps := sleeps }
    | HttpOutcome.httpError s =>
      if rem = 0 then
        { result := RequestResult.err (JsError.http s), attempts := i + 1
        , logins := if expired then logins + 1 else logins, sleeps := sleeps }
      else if s = 401 then
        v2Go outcomes false (i + 1) rem
          ((if expired then logins + 1 else logins) + 1) sleeps
      else if s = 429 then
        v2Go outcomes false (i + 1) rem
          (if expired then logins + 1 else logins) (sleeps + 1)
      else
        v2Go outcomes false (i + 1) rem
          (if expired then logins + 1 else logins) sleeps
    | HttpOutcome.networkError =>
      if rem = 0 then
        { result := RequestResult.err JsError.network, attempts := i + 1
        , logins := if expired then logins + 1 else logins, sleeps := sleeps }
      else
        v2Go outcomes false (i + 1) rem
          (if expired then logins + 1 else logins) sleeps

/-- v2 `retryRequest` with its default `retries = 3`; `expired` says
whether `Date.now() >= this.tokenExpiry` held at entry. -/
def v2RetryRequest (expired : Bool) (outcomes : Nat → HttpOutcome) :
    RequestTrace :=
  v2Go outcomes expired 0 3 0 0


theorem v1Go_attempts_le (loginOk : Bool) (outcomes : Nat → HttpOutcome) :
    ∀ rem i logins sleeps,
      (v1Go loginOk outcomes i rem logins sleeps).attempts ≤ i + rem := by
  intro rem
  induction rem with
  | zero => intro i l s; exact Nat.le_add_right i 0
  | succ n ih =>
    intro i l s
    unfold v1Go
    cases outcomes i with
    | success r => dsimp only; omega
    | networkError => dsimp only; omega
    | httpError st =>
      dsimp only
      by_cases h1 : st = 401
      · rw [if_pos h1]
        by_cases h2 : loginOk = true
        · rw [if_pos h2]
          exact le_trans (ih (i + 1) (l + 1) s) (by omega)
        · rw [if_neg h2]; dsimp only; omega
      · rw [if_neg h1]
        by_cases h2 : st = 429
        · rw [if_pos h2]
          exact le_trans (ih (i + 1) l (s + 1)) (by omega)
        · rw [if_neg h2]; dsimp only; omega

theorem v2Go_attempts_le (outcomes : Nat → HttpOutcome) :
    ∀ rem expired i logins sleeps,
      (v2Go outcomes expired i rem logins sleeps).attempts ≤ i + rem := by
  intro rem
  induction rem with
  | zero => intro e i l s; exact Nat.le_add_right i 0
  | succ n ih =>
    intro e i l s
    unfold v2Go
    cases outcomes i with
    | success r => dsimp only; omega
    | networkError =>
      dsimp only
      by_cases h0 : n = 0
      · rw [if_pos h0]; dsimp only; omega
      · rw [if_neg h0]
        exact le_trans (ih false (i + 1) _ s) (by omega)
    | httpError st =>
      dsimp only
      by_cases h0 : n = 0
      · rw [if_pos h0]; dsimp only; omega
      · rw [if_neg h0]
        by_cases h1 : st = 401
        · rw [if_pos h1]
          exact le_trans (ih false (i + 1) _ s) (by omega)
        · rw [if_neg h1]
          by_cases h2 : st = 429
          · rw [if_pos h2]
            exact le_trans (ih false (i + 1) _ (s + 1)) (by omega)
          · rw [if_neg h2]
            exact le_trans (ih false (i + 1) _ s) (by omega)

/-- C2: neither retry layer stops after a single re-login/retry on 401.
Both bound the number of attempts by 3, and on a stream of 401
responses v1 performs 3 attempts with 3 re-logins and then fails with
the generic `Max retries reached` error, while v2 performs 3 attempts
with 2 re-logins and rethrows the third 401 response error. -/
theorem c2_retry_on_401 :
    (∀ tokenValid loginOk outcomes,
      (v1MakeRequest tokenValid loginOk outcomes).attempts ≤ 3)
  ∧ (∀ expired outcomes, (v2RetryRequest expired outcomes).attempts ≤ 3)
  ∧ v1MakeRequest true true (fun _ => HttpOutcome.httpError 401)
      = { result := RequestResult.err (JsError.generic "Max retries reached")
        , attempts := 3, logins := 3, sleeps := 0 }
  ∧ v2RetryRequest false (fun _ => HttpOutcome.httpError 401)
      = { result := RequestResult.err (JsError.http 401)
        , attempts := 3, logins := 2, sleeps := 0 } := by
  refine ⟨?_, ?_, rfl, rfl⟩
  · intro tv lo o
    unfold v1MakeRequest
    by_cases h1 : tv = true
    · rw [if_pos h1]; exact v1Go_attempts_le lo o 3 0 0 0
    · rw [if_neg h1]
      by_cases h2 : lo = true
      · rw [if_pos h2]; exact v1Go_attempts_le lo o 3 0 1 0
      · rw [if_neg h2]; exact Nat.zero_le 3
  · intro e o
    exact v2Go_attempts_le o 3 e 0 0 0

/-- C2 counterexample: on a stream of 401 responses, v1's `makeRequest`
performs 3 re-logins and 3 attempts (the claim allows exactly 1
re-login and 2 attempts) and fails with the generic `Max retries
reached` error rather than an authentication error. -/
theorem c2_counterexample :
    v1MakeRequest true true (fun _ => HttpOutcome.httpError 401)
      = { result := RequestResult.err (JsError.generic "Max retries reached")
        , attempts := 3, logins := 3, sleeps := 0 }
  ∧ (v1MakeRequest true true (fun _ => HttpOutcome.httpError 401)).logins ≠ 1
  ∧ (v1MakeRequest true true (fun _ => HttpOutcome.httpError 401)).attempts ≠ 2 := by
  refine ⟨rfl, ?_, ?_⟩ <;> decide

/-- C4: on 429 both layers sleep the fixed delay and retry, with at
most 3 attempts; but on exhaustion v1 fails with the generic `Max
retries reached` error (after a third sleep), while v2 rethrows the
last 429 response error (no sleep after the final attempt). -/
theorem c4_retry_on_429 :
    (∀ tokenValid loginOk outcomes,
      (v1MakeRequest tokenValid loginOk outcomes).attempts ≤ 3)
  ∧ (∀ expired outcomes, (v2RetryRequest expired outcomes).attempts ≤ 3)
  ∧ v1MakeRequest true true (fun _ => HttpOutcome.httpError 429)
      = { result := RequestResult.err (JsError.generic "Max retries reached")
        , attempts := 3, logins := 0, sleeps := 3 }
  ∧ v2RetryRequest false (fun _ => HttpOutcome.httpError 429)
      = { result := RequestResult.err (JsError.http 429)
        , attempts := 3, logins := 0, sleeps := 2 } := by
  refine ⟨?_, ?_, rfl, rfl⟩
  · intro tv lo o
    unfold v1MakeRequest
    by_cases h1 : tv = true
    · rw [if_pos h1]; exact v1Go_attempts_le lo o 3 0 0 0
    · rw [if_neg h1]
      by_cases h2 : lo = true
      · rw [if_pos h2]; exact v1Go_attempts_le lo o 3 0 1 0
      · rw [if_neg h2]; exact Nat.zero_le 3
  · intro e o
    exact v2Go_attempts_le o 3 e 0 0 0

/-- C4 counterexample: after exhausting its 3 attempts on a stream of
429 responses, v1's `makeRequest` fails with the generic `Max retries
reached` error, not with any error identifying rate limiting (the 429
response error). -/
theorem c4_counterexample :
    (v1MakeRequest true true (fun _ => HttpOutcome.httpError 429)).result
      = RequestResult.err (JsError.generic "Max retries reached")
  ∧ (v1MakeRequest true true (fun _ => HttpOutcome.httpError 429)).result
      ≠ RequestResult.err (JsError.http 429) := by
  refine ⟨rfl, ?_⟩
  decide

/-! ## v1 caching reads -/

/-- What a get-style handler passes to its Homebridge callback:
`callback(error, value)`. -/
structure CallbackResult where
  error : Option JsError
  value : JSVal
  deriving DecidableEq

/-- The mutable v1 fields touched by `getCurrentTemperature`. -/
structure V1CurrentState where
  lastFetchedTime : Int
  cachedTemperature : JSVal
  deriving DecidableEq

/-- Outcome of the device-state GET made by v1 `getCurrentTemperature`
(after `makeRequest` resolved): the `temp` field of the response, or
the eventual error. -/
inductive CurFetchOutcome where
  | ok : JSVal → CurFetchOutcome
  | fail : JsError → CurFetchOutcome
  deriving DecidableEq

/-- v1 `getCurrentTemperature` with its constant
`cacheDuration = 60000`: within the cache window it returns the cached
temperature; otherwise it fetches; an invalid `temp` (not a finite
number) is replaced by 30 before being cached and returned; on fetch
failure the cache is untouched and the callback receives `(null, 30)`. -/
def v1GetCurrentTemperature (st : V1CurrentState) (now : Int)
    (outcome : CurFetchOutcome) : V1CurrentState × CallbackResult :=
  if now - st.lastFetchedTime < 60000 then
    (st, { error := none, value := st.cachedTemperature })
  else
    match outcome with
    | CurFetchOutcome.ok temp =>
      if isFiniteNumber temp then
        ({ lastFetchedTime := now, cachedTemperature := temp },
         { error := none, value := temp })
      else
        ({ lastFetchedTime := now, cachedTemperature := JSVal.num 30 },
         { error := none, value := JSVal.num 30 })
    | CurFetchOutcome.fail _ =>
      (st, { error := none, value := JSVal.num 30 })

/-- The mutable v1 fields consulted by `getTargetTemperature`. -/
structure V1TargetState where
  powerState : Bool
  targetTemperature : JSVal
  minTemperature : Rat
  deriving DecidableEq

/-- Outcome of the device-state GET made by v1 `getTargetTemperature`:
the `procReqTemp` and `reqTemp` fields, or the eventual error. -/
inductive TargetFetchOutcome where
  | ok : JSVal → JSVal → TargetFetchOutcome
  | fail : JsError → TargetFetchOutcome
  deriving DecidableEq

/-- v1 `getTargetTemperature`: after `ensureToken` (whose success is
the `ensureOk` flag; its failure is caught and answered with
`targetTemperature || minTemperature`), a powered-off heater is
answered from the stored `targetTemperature` without any device-state
request; otherwise the device state is fetched and
`procReqTemp || reqTemp || minTemperature` is stored and returned.
The last component counts device-state requests issued. -/
def v1GetTargetTemperature (st : V1TargetState) (ensureOk : Bool)
    (outcome : TargetFetchOutcome) :
    V1TargetState × CallbackResult × Nat :=
  if ensureOk = false then
    (st, { error := none
         , value := jsOr st.targetTemperature (JSVal.num st.minTemperature) }, 0)
  else if st.powerState = false then
    (st, { error := none, value := st.targetTemperature }, 0)
  else
    match outcome with
    | TargetFetchOutcome.ok procReqTemp reqTemp =>
      ({ st with
           targetTemperature :=
             jsOr procReqTemp (jsOr reqTemp (JSVal.num st.minTemperature)) },
       { error := none
       , value := jsOr procReqTemp (jsOr reqTemp (JSVal.num st.minTemperature)) }, 1)
    | TargetFetchOutcome.fail _ =>
      (st, { error := none
           , value := jsOr st.targetTemperature (JSVal.num st.minTemperature) }, 1)

/-! ## v2 cache, fetch and reads -/

/-- The v2 `cachedData` object. -/
structure CachedData where
  currentTemp : JSVal
  targetTemp : JSVal
  powerState : JSVal
  deriving DecidableEq

/-- The fields of the device-state response that v2 `updateCache`
reads; `powerOn` models the response field named `on` in the source,
which is a reserved word here. -/
structure V2Payload where
  temp : JSVal
  procReqTemp : JSVal
  reqTemp : JSVal
  powerOn : JSVal
  deriving DecidableEq

/-- v2 `updateCache`: each cached field is replaced only by a truthy
incoming value, falling back to the previous cached value. -/
def updateCache (cached : CachedData) (data : V2Payload) : CachedData :=
  { currentTemp := jsOr data.temp cached.currentTemp
  , targetTemp := jsOr data.procReqTemp (jsOr data.reqTemp cached.targetTemp)
  , powerState := jsOr data.powerOn cached.powerState }

/-- The mutable v2 fields touched by `fetchDeviceState` and
`handleGetRequest`. -/
structure V2State where
  lastFetchTime : Int
  isFetching : Bool
  cachedData : CachedData
  deriving DecidableEq

/-- Outcome of the device-state GET issued by v2 `fetchDeviceState`
(after `retryRequest` resolved). -/
inductive V2FetchOutcome where
  | ok : V2Payload → V2FetchOutcome
  | fail : JsError → V2FetchOutcome
  deriving DecidableEq

/-- The attribute a v2 get handler was asked for. -/
inductive GetType where
  | currentTemp
  | targetTemp
  | powerState
  deriving DecidableEq

/-- v2 `sendCachedValue`: the cached value for the requested attribute
(`powerState` is mapped to `CurrentHeatingCoolingState.HEAT = 1` /
`OFF = 0` by its truthiness). -/
def sendCachedValue (cached : CachedData) : GetType → JSVal
  | GetType.currentTemp => cached.currentTemp
  | GetType.targetTemp => cached.targetTemp
  | GetType.powerState => if truthy cached.powerState then JSVal.num 1 else JSVal.num 0

/-- v2 `fetchDeviceState` (token handling abstracted: the login needed
for a missing/expired token is assumed to succeed): an early return if
a fetch is already in flight; otherwise on success the cache is
replaced via `updateCache` and `lastFetchTime` is set, on failure the
error is rethrown with the cache and `lastFetchTime` untouched; the
`finally` clause clears `isFetching` on both paths.  Returns the
post-call state, the error thrown (if any), and whether a remote fetch
was actually issued. -/
def v2FetchDeviceState (st : V2State) (now : Int) (outcome : V2FetchOutcome) :
    V2State × Option JsError × Bool :=
  if st.isFetching then (st, none, false)
  else
    match outcome with
    | V2FetchOutcome.ok data =>
      ({ lastFetchTime := now, isFetching := false
       , cachedData := updateCache st.cachedData data }, none, true)
    | V2FetchOutcome.fail e =>
      ({ st with isFetching := false }, some e, true)

/-- v2 `handleGetRequest` with its constant
`activeRefreshThreshold = 10000`: if the cache is older than the
threshold and no fetch is in flight, it awaits `fetchDeviceState`
(catching any error) and then, in every case, answers with
`sendCachedValue` on the then-current cache and a `null` callback
error.  Returns the post-call state, the callback invocation, and
whether a remote fetch was issued. -/
def v2HandleGetRequest (st : V2State) (now : Int) (outcome : V2FetchOutcome)
    (type : GetType) : V2State × CallbackResult × Bool :=
  if 10000 < now - st.lastFetchTime ∧ st.isFetching = false then
    match v2FetchDeviceState st now outcome with
    | (st', _, fetched) =>
      (st', { error := none, value := sendCachedValue st'.cachedData type }, fetched)
  else
    (st, { error := none, value := sendCachedValue st.cachedData type }, false)

/-- Event-loop execution of `n` concurrent v2 get requests for
`currentTemp` that all arrive at time `now`: the first caller runs the
synchronous prefix of `handleGetRequest`; if it starts a fetch,
`isFetching` is set synchronously inside `fetchDeviceState` before the
first await, so the remaining `n - 1` callers (whose handlers run while
the fetch is in flight) each observe `isFetching = true` with the old
cache and fire their callbacks immediately; the network then resolves
and the first caller's callback fires on the post-fetch state.  Returns
how many remote fetches were issued, the callbacks of the `n - 1` later
callers, and the first caller's callback. -/
def v2ConcurrentGets (st : V2State) (now : Int) (outcome : V2FetchOutcome)
    (n : Nat) : Nat × List CallbackResult × CallbackResult :=
  match v2HandleGetRequest st now outcome GetType.currentTemp with
  | (_, cb1, true) =>
    (1,
     List.replicate (n - 1)
       (v2HandleGetRequest { st with isFetching := true } now outcome
          GetType.currentTemp).2.1,
     cb1)
  | (_, cb1, false) =>
    (0, List.replicate (n - 1) cb1, cb1)

/-! ## Login -/

/-- The token fields owned by `login` (identical in v1 and v2). -/
structure TokenState where
  token : Option String
  tokenExpiry : Option Int
  deriving DecidableEq

/-- Outcome of the remote login POST. -/
inductive LoginOutcome where
  | ok : String → LoginOutcome
  | err : JsError → LoginOutcome
  deriving DecidableEq

/-- v1 `login`: on success stores the token and `now + 3600000`; on any
failure (of either kind) it only logs — the stored token and expiry are
left untouched. -/
def v1Login (st : TokenState) (now : Int) (outcome : LoginOutcome) :
    TokenState :=
  match outcome with
  | LoginOutcome.ok t => { token := some t, tokenExpiry := some (now + 3600000) }
  | LoginOutcome.err _ => st

/-- v2 `login`: as v1, but a failure is rethrown to the caller (second
component) after logging; the stored token and expiry are again left
untouched. -/
def v2Login (st : TokenState) (now : Int) (outcome : LoginOutcome) :
    TokenState × Option JsError :=
  match outcome with
  | LoginOutcome.ok t =>
    ({ token := some t, tokenExpiry := some (now + 3600000) }, none)
  | LoginOutcome.err e => (st, some e)

/-! ## jsOr helper lemmas -/

theorem jsOr_of_truthy (a b : JSVal) (h : truthy a = true) : jsOr a b = a := by
  unfold jsOr
  rw [if_pos h]

theorem jsOr_of_falsy (a b : JSVal) (h : truthy a = false) : jsOr a b = b := by
  unfold jsOr
  rw [if_neg (by simp [h])]

theorem jsOr_falsy (a b : JSVal) (h : truthy (jsOr a b) = false) :
    jsOr a b = b := by
  by_cases ht : truthy a = true
  · exfalso
    rw [jsOr_of_truthy a b ht, ht] at h
    exact Bool.noConfusion h
  · exact jsOr_of_falsy a b (Bool.not_eq_true _ ▸ ht)

/-! ## Theorems for claims C3, C5, C7, C8, C9, C10 -/

/-- C3: a failed fetch leaves the cached state unchanged in both
versions, but the failure is not reported to the caller: both versions
invoke the callback with a `null` error, and v1 returns the fixed
default 30 rather than the cached temperature (v2 does return the
cached values). -/
theorem c3_fetch_failure_keeps_cache (st1 : V1CurrentState) (now1 : Int)
    (e1 : JsError) (st2 : V2State) (now2 : Int) (ty : GetType) (e2 : JsError)
    (h1 : 60000 ≤ now1 - st1.lastFetchedTime)
    (h2 : 10000 < now2 - st2.lastFetchTime) (h3 : st2.isFetching = false) :
    (v1GetCurrentTemperature st1 now1 (CurFetchOutcome.fail e1)).1 = st1
  ∧ (v1GetCurrentTemperature st1 now1 (CurFetchOutcome.fail e1)).2
      = { error := none, value := JSVal.num 30 }
  ∧ (v2HandleGetRequest st2 now2 (V2FetchOutcome.fail e2) ty).1.cachedData
      = st2.cachedData
  ∧ (v2HandleGetRequest st2 now2 (V2FetchOutcome.fail e2) ty).2.1
      = { error := none, value := sendCachedValue st2.cachedData ty } := by
  have hnot : ¬ (now1 - st1.lastFetchedTime < 60000) := not_lt.mpr h1
  refine ⟨?_, ?_, ?_, ?_⟩
  · unfold v1GetCurrentTemperature
    rw [if_neg hnot]
  · unfold v1GetCurrentTemperature
    rw [if_neg hnot]
  · simp [v2HandleGetRequest, v2FetchDeviceState, h2, h3]
  · simp [v2HandleGetRequest, v2FetchDeviceState, h2, h3]

/-- C3 witness: concrete stale states with a network error. -/
theorem c3_fetch_failure_keeps_cache_witness :
    (v1GetCurrentTemperature ⟨0, JSVal.num 55⟩ 70000
        (CurFetchOutcome.fail JsError.network)).1 = ⟨0, JSVal.num 55⟩
  ∧ (v2HandleGetRequest ⟨0, false, ⟨JSVal.num 40, JSVal.num 40, JSVal.boolean false⟩⟩
        20000 (V2FetchOutcome.fail JsError.network) GetType.currentTemp).1.cachedData
      = ⟨JSVal.num 40, JSVal.num 40, JSVal.boolean false⟩ := by
  have h := c3_fetch_failure_keeps_cache ⟨0, JSVal.num 55⟩ 70000 JsError.network
    ⟨0, false, ⟨JSVal.num 40, JSVal.num 40, JSVal.boolean false⟩⟩ 20000
    GetType.currentTemp JsError.network (by decide) (by decide) rfl
  exact ⟨h.1, h.2.2.1⟩

/-- C3 counterexample: with a cached temperature of 55, a stale cache
and a failing fetch, v1 `getCurrentTemperature` calls back with value
30 — not the retained cached value 55 — and with a `null` error, so the
failure is hidden from the caller; v2 likewise passes a `null` error. -/
theorem c3_counterexample :
    (v1GetCurrentTemperature ⟨0, JSVal.num 55⟩ 70000
        (CurFetchOutcome.fail JsError.network)).2.value = JSVal.num 30
  ∧ (v1GetCurrentTemperature ⟨0, JSVal.num 55⟩ 70000
        (CurFetchOutcome.fail JsError.network)).2.value
      ≠ (⟨0, JSVal.num 55⟩ : V1CurrentState).cachedTemperature
  ∧ (v1GetCurrentTemperature ⟨0, JSVal.num 55⟩ 70000
        (CurFetchOutcome.fail JsError.network)).2.error = none
  ∧ (v2HandleGetRequest ⟨0, false, ⟨JSVal.num 40, JSVal.num 40, JSVal.boolean false⟩⟩
        20000 (V2FetchOutcome.fail JsError.network) GetType.currentTemp).2.1.error
      = none := by
  refine ⟨?_, ?_, ?_, ?_⟩ <;> decide

/-- C5: when `n` concurrent get requests arrive on a stale cache with
no fetch in flight, exactly one remote fetch is issued, but only the
caller that initiated the fetch sees the fetched state: the other
`n - 1` callers return the previous cached value immediately instead of
awaiting the in-flight fetch. -/
theorem c5_single_flight (st : V2State) (now : Int) (data : V2Payload) (n : Nat)
    (h1 : 10000 < now - st.lastFetchTime) (h2 : st.isFetching = false) :
    (v2ConcurrentGets st now (V2FetchOutcome.ok data) n).1 = 1
  ∧ (v2ConcurrentGets st now (V2FetchOutcome.ok data) n).2.1
      = List.replicate (n - 1)
          { error := none, value := st.cachedData.currentTemp }
  ∧ (v2ConcurrentGets st now (V2FetchOutcome.ok data) n).2.2
      = { error := none
        , value := (updateCache st.cachedData data).currentTemp } := by
  refine ⟨?_, ?_, ?_⟩ <;>
    simp [v2ConcurrentGets, v2HandleGetRequest, v2FetchDeviceState,
      sendCachedValue, h1, h2]

/-- C5 witness: two concurrent readers over a concrete stale state. -/
theorem c5_single_flight_witness :
    (v2ConcurrentGets ⟨0, false, ⟨JSVal.num 40, JSVal.num 40, JSVal.boolean false⟩⟩
        20000 (V2FetchOutcome.ok ⟨JSVal.num 55, JSVal.num 0, JSVal.num 0,
          JSVal.boolean true⟩) 2).1 = 1
  ∧ (v2ConcurrentGets ⟨0, false, ⟨JSVal.num 40, JSVal.num 40, JSVal.boolean false⟩⟩
        20000 (V2FetchOutcome.ok ⟨JSVal.num 55, JSVal.num 0, JSVal.num 0,
          JSVal.boolean true⟩) 2).2.1
      = [{ error := none, value := JSVal.num 40 }] := by
  have h := c5_single_flight
    ⟨0, false, ⟨JSVal.num 40, JSVal.num 40, JSVal.boolean false⟩⟩ 20000
    ⟨JSVal.num 55, JSVal.num 0, JSVal.num 0, JSVal.boolean true⟩ 2
    (by decide) rfl
  exact ⟨h.1, h.2.1⟩

/-- C5 counterexample: in the same two-reader scenario, the late caller
receives the old cached temperature 40 while the initiating caller
receives the freshly fetched 55 — the callers do not all receive the
same resulting value. -/
theorem c5_counterexample :
    (v2ConcurrentGets ⟨0, false, ⟨JSVal.num 40, JSVal.num 40, JSVal.boolean false⟩⟩
        20000 (V2FetchOutcome.ok ⟨JSVal.num 55, JSVal.num 0, JSVal.num 0,
          JSVal.boolean true⟩) 2).2.1
      = [{ error := none, value := JSVal.num 40 }]
  ∧ (v2ConcurrentGets ⟨0, false, ⟨JSVal.num 40, JSVal.num 40, JSVal.boolean false⟩⟩
        20000 (V2FetchOutcome.ok ⟨JSVal.num 55, JSVal.num 0, JSVal.num 0,
          JSVal.boolean true⟩) 2).2.2
      = { error := none, value := JSVal.num 55 }
  ∧ JSVal.num 40 ≠ JSVal.num 55 := by
  refine ⟨?_, ?_, ?_⟩ <;> decide

/-- C7: a failed login stores no new token in either version: the token
and expiry fields are left exactly as they were for every kind of
failure (in particular a transient network failure leaves them
unchanged, and the previous token is never cleared — so it is cleared
only in the vacuous sense); v2 additionally rethrows the failure. -/
theorem c7_login_failure_preserves_token (st : TokenState) (now : Int)
    (e : JsError) :
    v1Login st now (LoginOutcome.err e) = st
  ∧ (v2Login st now (LoginOutcome.err e)).1 = st
  ∧ (v2Login st now (LoginOutcome.err e)).2 = some e
  ∧ (v1Login st now (LoginOutcome.err e)).token = st.token :=
  ⟨rfl, rfl, rfl, rfl⟩

/-- C8: in v1, with the tracked power state off and a truthy stored
target temperature, `getTargetTemperature` issues no device-state
request and passes the stored `targetTemperature` to the callback,
whatever `ensureToken` and the (never-issued) fetch would do. -/
theorem c8_power_off_no_fetch (st : V1TargetState) (ensureOk : Bool)
    (outcome : TargetFetchOutcome)
    (hp : st.powerState = false) (ht : truthy st.targetTemperature = true) :
    (v1GetTargetTemperature st ensureOk outcome).2.2 = 0
  ∧ (v1GetTargetTemperature st ensureOk outcome).2.1.value
      = st.targetTemperature := by
  unfold v1GetTargetTemperature
  by_cases he : ensureOk = false
  · rw [if_pos he]
    exact ⟨rfl, jsOr_of_truthy _ _ ht⟩
  · rw [if_neg he, if_pos hp]
    exact ⟨rfl, rfl⟩

/-- C8 witness: a powered-off heater with stored target 45. -/
theorem c8_power_off_no_fetch_witness :
    (v1GetTargetTemperature ⟨false, JSVal.num 45, 40⟩ false
        (TargetFetchOutcome.fail JsError.network)).2.2 = 0
  ∧ (v1GetTargetTemperature ⟨false, JSVal.num 45, 40⟩ false
        (TargetFetchOutcome.fail JsError.network)).2.1.value = JSVal.num 45 :=
  c8_power_off_no_fetch ⟨false, JSVal.num 45, 40⟩ false
    (TargetFetchOutcome.fail JsError.network) rfl (by decide)

/-- C9: in v1, if the cached temperature is a finite number then after
any call to `getCurrentTemperature` both the new cached temperature and
the callback value are finite numbers, and when a fetch returns a
non-finite `temp` the default 30 is cached and returned in its place. -/
theorem c9_current_temp_finite (st : V1CurrentState) (now : Int)
    (outcome : CurFetchOutcome)
    (h : isFiniteNumber st.cachedTemperature = true) :
    isFiniteNumber
        (v1GetCurrentTemperature st now outcome).1.cachedTemperature = true
  ∧ isFiniteNumber (v1GetCurrentTemperature st now outcome).2.value = true
  ∧ ∀ t, outcome = CurFetchOutcome.ok t → isFiniteNumber t = false →
      60000 ≤ now - st.lastFetchedTime →
      (v1GetCurrentTemperature st now outcome).2.value = JSVal.num 30
    ∧ (v1GetCurrentTemperature st now outcome).1.cachedTemperature
        = JSVal.num 30 := by
  unfold v1GetCurrentTemperature
  by_cases hc : now - st.lastFetchedTime < 60000
  · rw [if_pos hc]
    refine ⟨h, h, ?_⟩
    intro t _ _ hge
    exact absurd hc (not_lt.mpr hge)
  · rw [if_neg hc]
    cases outcome with
    | ok t =>
      dsimp only
      by_cases hf : isFiniteNumber t = true
      · rw [if_pos hf]
        refine ⟨hf, hf, ?_⟩
        intro t' heq hf' _
        injection heq with ht'
        rw [← ht'] at hf'
        rw [hf] at hf'
        exact Bool.noConfusion hf'
      · rw [if_neg hf]
        refine ⟨rfl, rfl, ?_⟩
        intro t' _ _ _
        exact ⟨rfl, rfl⟩
    | fail e =>
      refine ⟨h, rfl, ?_⟩
      intro t heq
      exact CurFetchOutcome.noConfusion heq

/-- C9 witness: a stale cache holding 30 and a fetch that returns NaN:
both the cached value and the callback value end up as the finite 30. -/
theorem c9_current_temp_finite_witness :
    isFiniteNumber
        (v1GetCurrentTemperature ⟨0, JSVal.num 30⟩ 70000
          (CurFetchOutcome.ok JSVal.nan)).1.cachedTemperature = true
  ∧ (v1GetCurrentTemperature ⟨0, JSVal.num 30⟩ 70000
        (CurFetchOutcome.ok JSVal.nan)).2.value = JSVal.num 30 := by
  have h := c9_current_temp_finite ⟨0, JSVal.num 30⟩ 70000
    (CurFetchOutcome.ok JSVal.nan) rfl
  exact ⟨h.1, (h.2.2 JSVal.nan rfl rfl (by decide)).1⟩

/-- C10: v2 `updateCache` never moves a cached field to a falsy value:
a falsy `on` leaves the cached power state unchanged (so a truthy power
state stays truthy across every fetch), a remote temperature of 0 never
replaces the cached current or target temperature, and whenever the new
current temperature is falsy it is exactly the previous cached one. -/
theorem c10_updateCache_never_falsy (cached : CachedData) (data : V2Payload) :
    (truthy data.powerOn = false →
       (updateCache cached data).powerState = cached.powerState)
  ∧ (truthy cached.powerState = true →
       truthy (updateCache cached data).powerState = true)
  ∧ (data.temp = JSVal.num 0 →
       (updateCache cached data).currentTemp = cached.currentTemp)
  ∧ (data.procReqTemp = JSVal.num 0 → data.reqTemp = JSVal.num 0 →
       (updateCache cached data).targetTemp = cached.targetTemp)
  ∧ (truthy (updateCache cached data).currentTemp = false →
       (updateCache cached data).currentTemp = cached.currentTemp)
  ∧ (truthy (updateCache cached data).targetTemp = false →
       (updateCache cached data).targetTemp = cached.targetTemp) := by
  refine ⟨?_, ?_, ?_, ?_, ?_, ?_⟩
  · intro h
    show jsOr data.powerOn cached.powerState = cached.powerState
    exact jsOr_of_falsy _ _ h
  · intro h
    show truthy (jsOr data.powerOn cached.powerState) = true
    by_cases ho : truthy data.powerOn = true
    · rw [jsOr_of_truthy _ _ ho]
      exact ho
    · rw [jsOr_of_falsy _ _ (Bool.not_eq_true _ ▸ ho)]
      exact h
  · intro h
    show jsOr data.temp cached.currentTemp = cached.currentTemp
    rw [h]
    exact jsOr_of_falsy _ _ (by decide)
  · intro h1 h2
    show jsOr data.procReqTemp (jsOr data.reqTemp cached.targetTemp)
      = cached.targetTemp
    rw [h1, h2]
    rw [jsOr_of_falsy (JSVal.num 0) _ (by decide)]
    exact jsOr_of_falsy _ _ (by decide)
  · intro h
    show jsOr data.temp cached.currentTemp = cached.currentTemp
    exact jsOr_falsy data.temp cached.currentTemp h
  · intro h
    have h' : truthy (jsOr data.procReqTemp (jsOr data.reqTemp cached.targetTemp))
        = false := h
    show jsOr data.procReqTemp (jsOr data.reqTemp cached.targetTemp)
      = cached.targetTemp
    have e1 := jsOr_falsy data.procReqTemp (jsOr data.reqTemp cached.targetTemp) h'
    rw [e1] at h' ⊢
    exact jsOr_falsy _ _ h'

/-- C10 witness: a fetch payload reporting `on: false` and all
temperatures 0 against a truthy cache leaves every cached field
unchanged. -/
theorem c10_updateCache_never_falsy_witness :
    (updateCache ⟨JSVal.num 42, JSVal.num 50, JSVal.boolean true⟩
        ⟨JSVal.num 0, JSVal.num 0, JSVal.num 0, JSVal.boolean false⟩).powerState
      = JSVal.boolean true
  ∧ truthy (updateCache ⟨JSVal.num 42, JSVal.num 50, JSVal.boolean true⟩
        ⟨JSVal.num 0, JSVal.num 0, JSVal.num 0, JSVal.boolean false⟩).powerState
      = true
  ∧ (updateCache ⟨JSVal.num 42, JSVal.num 50, JSVal.boolean true⟩
        ⟨JSVal.num 0, JSVal.num 0, JSVal.num 0, JSVal.boolean false⟩).currentTemp
      = JSVal.num 42
  ∧ (updateCache ⟨JSVal.num 42, JSVal.num 50, JSVal.boolean true⟩
        ⟨JSVal.num 0, JSVal.num 0, JSVal.num 0, JSVal.boolean false⟩).targetTemp
      = JSVal.num 50 := by
  have h := c10_updateCache_never_falsy
    ⟨JSVal.num 42, JSVal.num 50, JSVal.boolean true⟩
    ⟨JSVal.num 0, JSVal.num 0, JSVal.num 0, JSVal.boolean false⟩
  exact ⟨h.1 rfl, h.2.1 rfl, h.2.2.1 rfl, h.2.2.2.1 rfl rfl⟩
